import Mathlib

/-!
Shallow embedding of the sandbox validation system
(`src/sandbox/performance_monitor.py` and `src/sandbox/sandbox_validator.py`).

Python floats are modelled as rationals (`ℚ`); Python `Optional[float]`
fields as `Option ℚ`.  Python truthiness tests on such fields
(`if self.target_value:`) are modelled by `isTruthy`, which is false both
for `None` and for `0.0`, exactly as in CPython.
-/

namespace SuperAgent

/-- Python truthiness of an `Optional[float]` value: `None` and `0.0` are
falsy, every other float is truthy. -/
def isTruthy : Option ℚ → Bool
  | none => false
  | some q => q != 0

/-- The `DimensionType` enum of `performance_monitor.py`. -/
inductive DimensionType
  | throughput
  | latency
  | cost
  | error_rate
  | accuracy
  | memory
  | api_rate_limit
  | token_usage
deriving DecidableEq, Repr

/-- The `DimensionConfig` dataclass of `performance_monitor.py`. -/
structure DimensionConfig where
  name : String
  dim_type : DimensionType
  current_value : ℚ
  target_value : Option ℚ := none
  max_value : Option ℚ := none
  min_value : Option ℚ := none
  unit : String := ""
  weight : ℚ := 1
deriving Repr

/-- Membership of a dimension type in the higher-is-better list of
`DimensionConfig.utilization` (line 40 of `performance_monitor.py`). -/
def DimensionType.higherIsBetter : DimensionType → Bool
  | .throughput | .accuracy => true
  | _ => false

/-- Membership of a dimension type in the lower-is-better list of
`DimensionConfig.utilization` (lines 48-50 of `performance_monitor.py`). -/
def DimensionType.lowerIsBetter : DimensionType → Bool
  | .latency | .cost | .error_rate | .memory | .api_rate_limit => true
  | _ => false

/-- `DimensionConfig.utilization` (lines 38-64 of `performance_monitor.py`).
The guards mirror Python truthiness: `if self.target_value and
self.current_value:` requires both a non-`None`, non-zero target and a
non-zero current value. -/
def DimensionConfig.utilization (c : DimensionConfig) : ℚ :=
  if c.dim_type.higherIsBetter then
    if isTruthy c.target_value && (c.current_value != 0) then
      1 - min (c.current_value / c.target_value.getD 0) 1
    else if isTruthy c.max_value then
      c.current_value / c.max_value.getD 0
    else (1 : ℚ) / 2
  else if c.dim_type.lowerIsBetter then
    if isTruthy c.max_value then
      min (c.current_value / c.max_value.getD 0) 1
    else if isTruthy c.target_value then
      (c.current_value - c.target_value.getD 0) / c.target_value.getD 0
    else (1 : ℚ) / 2
  else if c.dim_type = .token_usage then
    if isTruthy c.max_value then
      c.current_value / c.max_value.getD 0
    else (1 : ℚ) / 2
  else (1 : ℚ) / 2

/-- The `PerformanceMetrics` dataclass of `sandbox_validator.py` (well-typed
values: floats as `ℚ`, ints as `ℤ`). -/
structure PerformanceMetrics where
  throughput : ℚ
  cost : ℚ
  error_rate : ℚ
  latency_p95 : ℚ
  latency_p99 : ℚ
  memory_peak_mb : ℚ
  total_tasks : ℤ
  completed_tasks : ℤ
  failed_tasks : ℤ
  total_duration_seconds : ℚ
deriving Repr

namespace SandboxValidator

/-- `SandboxValidator.IMPROVEMENT_THRESHOLD` (line 102). -/
def IMPROVEMENT_THRESHOLD : ℚ := 15 / 100

/-- `SandboxValidator.REGRESSION_TOLERANCE` (line 103). -/
def REGRESSION_TOLERANCE : ℚ := 5 / 100

/-- The `dimensions` list of `_calculate_changes` (lines 385-391): name,
accessor, and the higher-is-better flag, in source order. -/
def changeDimensions : List (String × (PerformanceMetrics → ℚ) × Bool) :=
  [("throughput", fun m => m.throughput, true),
   ("cost", fun m => m.cost, false),
   ("error_rate", fun m => m.error_rate, false),
   ("latency", fun m => m.latency_p95, false),
   ("memory", fun m => m.memory_peak_mb, false)]

/-- The percentage change of `_calculate_changes` (lines 400-403): zero when
the baseline value is zero, otherwise `(proposed - baseline) / baseline`. -/
def pctChange (base_val prop_val : ℚ) : ℚ :=
  if base_val = 0 then 0 else (prop_val - base_val) / base_val

/-- The classification loop of `_calculate_changes` (lines 396-414), by
recursion over the dimension list; insertion order of the two Python dicts is
preserved. -/
def classifyChanges (baseline proposed : PerformanceMetrics) :
    List (String × (PerformanceMetrics → ℚ) × Bool) →
    List (String × ℚ) × List (String × ℚ)
  | [] => ([], [])
  | d :: rest =>
    let r := classifyChanges baseline proposed rest
    let pct := pctChange (d.2.1 baseline) (d.2.1 proposed)
    if d.2.2 then
      if pct > 0 then ((d.1, pct) :: r.1, r.2) else (r.1, (d.1, |pct|) :: r.2)
    else
      if pct < 0 then ((d.1, |pct|) :: r.1, r.2) else (r.1, (d.1, pct) :: r.2)

/-- `SandboxValidator._calculate_changes` (lines 378-416): returns the
`(improvements, regressions)` pair of association lists. -/
def _calculate_changes (baseline proposed : PerformanceMetrics) :
    List (String × ℚ) × List (String × ℚ) :=
  classifyChanges baseline proposed changeDimensions

/-- Result of `SandboxValidator._test_scale` (lines 352-359): the measured
throughputs at the three multipliers, plus the linearity figures. -/
structure ScaleTestResult where
  throughput_1x : ℚ
  throughput_5x : ℚ
  throughput_10x : ℚ
  linearity_5x : ℚ
  linearity_10x : ℚ
  linearity : ℚ
deriving Repr

/-- The linearity computation of `SandboxValidator._test_scale`
(lines 336-359), as a function of the three measured throughputs. -/
def _test_scale (t1 t5 t10 : ℚ) : ScaleTestResult :=
  let expected_5x := t1 * 5
  let linearity_5x := if expected_5x > 0 then t5 / expected_5x else 0
  let expected_10x := t1 * 10
  let linearity_10x := if expected_10x > 0 then t10 / expected_10x else 0
  let avg_linearity := (linearity_5x + linearity_10x) / 2
  ⟨t1, t5, t10, linearity_5x, linearity_10x, avg_linearity⟩

/-- Maximum of a nonempty list of rationals (Python `max`). -/
def listMax (x : ℚ) (xs : List ℚ) : ℚ := xs.foldl max x

/-- `SandboxValidator._calculate_confidence` (lines 418-442), as a function of
the improvements map, the regressions map, and `scale_results["linearity"]`. -/
def _calculate_confidence (improvements regressions : List (String × ℚ))
    (scale_linearity : ℚ) : ℚ :=
  let confidence : ℚ := 1 / 2
  let confidence :=
    match improvements.map (fun p => p.2) with
    | [] => confidence
    | v :: vs =>
      confidence + min (((v :: vs).sum / (v :: vs).length) * (3 / 10)) (3 / 10)
  let confidence :=
    match regressions.map (fun p => p.2) with
    | [] => confidence
    | v :: vs => confidence - min (listMax v vs * (1 / 2)) (3 / 10)
  let confidence := confidence + scale_linearity * (2 / 10)
  min (max confidence 0) 1

/-- The reject reasons a `ValidationResult` can carry (lines 216-223): one per
gate condition, in priority order. -/
inductive RejectReason
  | bottleneckNotImproved
  | regressionExceedsTolerance
  | scaleLinearityTooLow
deriving DecidableEq, Repr

/-- The decision gate of `validate_proposal` (lines 199-233): the approval
boolean and the reject reason, as functions of the improvements map, the
regressions map, the limiting factor, and the measured scale linearity.
Mirrors the source: `improvement.get(limiting_factor, 0) >= 0.15`, all
regressions `<= 0.05`, and `scale_results["linearity"] > 0.8` (strict). -/
def decisionGate (improvement regressions : List (String × ℚ))
    (limiting_factor : String) (scale_linearity : ℚ) :
    Bool × Option RejectReason :=
  let bottleneck_improved :=
    decide ((improvement.lookup limiting_factor).getD 0 ≥ IMPROVEMENT_THRESHOLD)
  let no_significant_regressions :=
    regressions.all (fun p => decide (p.2 ≤ REGRESSION_TOLERANCE))
  let scales_linearly := decide (scale_linearity > 8 / 10)
  let approved := bottleneck_improved && no_significant_regressions && scales_linearly
  let reason : Option RejectReason :=
    if !bottleneck_improved then some .bottleneckNotImproved
    else if !no_significant_regressions then some .regressionExceedsTolerance
    else if !scales_linearly then some .scaleLinearityTooLow
    else none
  (approved, reason)

/-- The utilization dict built by `SandboxValidator._identify_bottleneck`
(lines 365-371), in insertion order. -/
def validatorUtilizations (metrics : PerformanceMetrics) : List (String × ℚ) :=
  [("throughput", 1 - min (metrics.throughput / 100) 1),
   ("error_rate", metrics.error_rate),
   ("latency", min (metrics.latency_p95 / 5) 1),
   ("cost", min (metrics.cost / 1) 1),
   ("memory", min (metrics.memory_peak_mb / 512) 1)]

end SandboxValidator

/-- Python `max(items, key=value)` over a nonempty list: keeps the current
maximum and replaces it only on a strictly greater value, so the first
maximum in iteration order wins ties. -/
def pyMaxGo (best : String × ℚ) : List (String × ℚ) → String × ℚ
  | [] => best
  | y :: ys => pyMaxGo (if best.2 < y.2 then y else best) ys

/-- Python `max(items, key=value)`; `none` on the empty list (where Python
raises `ValueError`). -/
def pyMaxByValue : List (String × ℚ) → Option (String × ℚ)
  | [] => none
  | x :: xs => some (pyMaxGo x xs)

/-- `SandboxValidator._identify_bottleneck` (lines 361-376): the key of the
utilization dict with the highest value (`max(utilizations,
key=utilizations.get)`). -/
def SandboxValidator._identify_bottleneck (metrics : PerformanceMetrics) : String :=
  match pyMaxByValue (SandboxValidator.validatorUtilizations metrics) with
  | some p => p.1
  | none => ""

namespace PerformanceMonitor

/-- `PerformanceMonitor.identify_bottleneck` (lines 176-206): over the
monitor's dimension configurations in dict insertion order, picks the entry
with the highest utilization (`max(utilizations.items(), key=...)`) and
returns its name and severity. -/
def identify_bottleneck (dims : List DimensionConfig) : Option (String × ℚ) :=
  pyMaxByValue (dims.map (fun c => (c.name, c.utilization)))

/-- The default `self.dimensions` dict of `PerformanceMonitor.__init__`
(lines 97-154), in insertion order. -/
def defaultDimensions : List DimensionConfig :=
  [{ name := "throughput", dim_type := .throughput, current_value := 50,
     target_value := some 1000, unit := "tasks/hour" },
   { name := "latency", dim_type := .latency, current_value := 5,
     max_value := some 10, unit := "seconds" },
   { name := "cost", dim_type := .cost, current_value := 5/100,
     max_value := some 1, unit := "USD/task" },
   { name := "error_rate", dim_type := .error_rate, current_value := 2/100,
     max_value := some (5/100), unit := "ratio" },
   { name := "accuracy", dim_type := .accuracy, current_value := 85/100,
     target_value := some (95/100), unit := "ratio" },
   { name := "api_rate_limit", dim_type := .api_rate_limit, current_value := 0,
     max_value := some (9/10), unit := "ratio" },
   { name := "token_usage", dim_type := .token_usage, current_value := 0,
     max_value := some 100000, unit := "tokens" },
   { name := "memory", dim_type := .memory, current_value := 256,
     max_value := some 512, unit := "MB" }]

end PerformanceMonitor

/-- A Python value as returned by `json.loads`. -/
inductive PyJson
  | null
  | bool (b : Bool)
  | num (q : ℚ)
  | str (s : String)
  | arr (items : List PyJson)
  | obj (fields : List (String × PyJson))
deriving Repr

/-- Python runtime errors relevant to `_parse_metrics_output`; only
`json.JSONDecodeError` is caught there, every other error propagates. -/
inductive PyError
  | typeError
  | attributeError
  | keyError
deriving DecidableEq, Repr

/-- Python `key in data` for `data = json.loads(...)`: key lookup on a dict,
element membership on a list, substring test on a string, and `TypeError`
on a number, boolean or `None` (argument not iterable). -/
def pyContains (data : PyJson) (key : String) : Except PyError Bool :=
  match data with
  | .obj fields => .ok (fields.any (fun f => f.1 == key))
  | .arr items =>
    .ok (items.any (fun j => match j with | .str s => s == key | _ => false))
  | .str s => .ok (decide ((s.splitOn key).length ≥ 2))
  | _ => .error .typeError

/-- Python `data[key]` with a string key: value lookup on a dict (`KeyError`
when absent), `TypeError` on every other type. -/
def pySubscript (data : PyJson) (key : String) : Except PyError PyJson :=
  match data with
  | .obj fields =>
    match fields.lookup key with
    | some v => .ok v
    | none => .error .keyError
  | _ => .error .typeError

/-- Python `m.get(key, default)`: only dicts have `.get`; every other type
raises `AttributeError`. -/
def pyGet (m : PyJson) (key : String) (default : PyJson) : Except PyError PyJson :=
  match m with
  | .obj fields => .ok ((fields.lookup key).getD default)
  | _ => .error .attributeError

/-- The `PerformanceMetrics` dataclass as actually populated by
`_parse_metrics_output`: the Python dataclass does not check field types at
runtime, so each metric field holds whatever JSON value `m.get` returned,
while `total_duration_seconds` is always the float computed by the caller. -/
structure RawMetrics where
  throughput : PyJson
  cost : PyJson
  error_rate : PyJson
  latency_p95 : PyJson
  latency_p99 : PyJson
  memory_peak_mb : PyJson
  total_tasks : PyJson
  completed_tasks : PyJson
  failed_tasks : PyJson
  total_duration_seconds : ℚ
deriving Repr

namespace SandboxValidator

/-- The zero-valued fallback metrics of `_parse_metrics_output`
(lines 488-493). -/
def fallbackMetrics (duration : ℚ) : RawMetrics :=
  ⟨.num 0, .num 0, .num 0, .num 0, .num 0, .num 0, .num 0, .num 0, .num 0,
   duration⟩

/-- `SandboxValidator._parse_metrics_output` (lines 460-493).  The input is
the outcome of `json.loads(output)`: `none` models a `json.JSONDecodeError`
(caught, line 484), `some data` a successful parse.  Inside the `try` block
only `JSONDecodeError` is caught, so a `TypeError` from `"metrics" in data`
or an `AttributeError` from `m.get` propagates to the caller. -/
def _parse_metrics_output (parsed : Option PyJson) (duration : ℚ) :
    Except PyError RawMetrics :=
  match parsed with
  | none => .ok (fallbackMetrics duration)
  | some data =>
    match pyContains data "metrics" with
    | .error e => .error e
    | .ok false => .ok (fallbackMetrics duration)
    | .ok true =>
      match pySubscript data "metrics" with
      | .error e => .error e
      | .ok m => do
        let throughput ← pyGet m "throughput" (.num 0)
        let cost ← pyGet m "cost" (.num 0)
        let error_rate ← pyGet m "error_rate" (.num 0)
        let latency_p95 ← pyGet m "latency_p95" (.num 0)
        let latency_p99 ← pyGet m "latency_p99" (.num 0)
        let memory_peak_mb ← pyGet m "memory_peak_mb" (.num 0)
        let total_tasks ← pyGet m "total_tasks" (.num 0)
        let completed_tasks ← pyGet m "completed_tasks" (.num 0)
        let failed_tasks ← pyGet m "failed_tasks" (.num 0)
        pure ⟨throughput, cost, error_rate, latency_p95, latency_p99,
              memory_peak_mb, total_tasks, completed_tasks, failed_tasks,
              duration⟩

/-- Outcome of the container run inside `_run_sandbox` (lines 266-293): a
normal exit with the container's output, or a `ContainerError` whose logs
are recovered; either way the text is then given to `json.loads`, whose
outcome (`none` = `JSONDecodeError`) is what matters downstream. -/
inductive ContainerRun
  | success (parsedOutput : Option PyJson)
  | containerError (parsedLogs : Option PyJson)

/-- `SandboxValidator._run_sandbox` (lines 250-307), after the container
call: both the success path and the `ContainerError` path feed the available
text and the measured wall-clock `duration = time.time() - start_time` to
`_parse_metrics_output`. -/
def _run_sandbox (run : ContainerRun) (duration : ℚ) :
    Except PyError RawMetrics :=
  match run with
  | .success parsedOutput => _parse_metrics_output parsedOutput duration
  | .containerError parsedLogs => _parse_metrics_output parsedLogs duration

end SandboxValidator

/-- The spec's wording of the confidence formula: `0.5 +
min(mean(improvements.values()) * 0.3, 0.3) - min(max(regressions.values(),
default=0) * 0.5, 0.3) + linearity * 0.2`, clamped to `[0, 1]`.  The mean of
an empty improvements map is taken as `0`, the only reading under which the
`min(..., 0.3)` term contributes nothing, mirroring the `default=0`
treatment the spec gives for regressions. -/
def confidenceSpec (improvements regressions : List (String × ℚ))
    (linearity : ℚ) : ℚ :=
  let improvementVals := improvements.map (fun p => p.2)
  let meanImprovement : ℚ :=
    if improvementVals = [] then 0 else improvementVals.sum / improvementVals.length
  let maxRegression : ℚ :=
    match regressions.map (fun p => p.2) with
    | [] => 0
    | v :: vs => SandboxValidator.listMax v vs
  min (max (1/2 + min (meanImprovement * (3/10)) (3/10)
      - min (maxRegression * (1/2)) (3/10) + linearity * (2/10)) 0) 1

/-- The spec's wording of the decision gate's three conditions: bottleneck
improvement at least `0.15`, every regression at most `0.05`, and scale
linearity at least `0.80` (note: at LEAST, i.e. `≥`). -/
def claimGateApproved (improvement regressions : List (String × ℚ))
    (limiting_factor : String) (scale_linearity : ℚ) : Prop :=
  (improvement.lookup limiting_factor).getD 0 ≥ 15/100 ∧
  (∀ p ∈ regressions, p.2 ≤ 5/100) ∧
  scale_linearity ≥ 8/10

/-- The element of a list of `(name, value)` pairs that Python's
first-maximum `max` selects: everything before it is strictly smaller,
everything after it is no larger. -/
def FirstMax (l : List (String × ℚ)) (winner : String × ℚ) : Prop :=
  ∃ pre post, l = pre ++ winner :: post ∧
    (∀ y ∈ pre, y.2 < winner.2) ∧ (∀ y ∈ post, y.2 ≤ winner.2)

/-- A higher-is-better dimension reading with only `max_value` configured and
a current value above it: the unclamped `current / max` branch. -/
def overshootConfig : DimensionConfig :=
  { name := "throughput", dim_type := .throughput, current_value := 200,
    max_value := some 100 }

/-- A higher-is-better dimension reading with `target_value` configured and a
current value of exactly `0.0`, which is falsy in Python. -/
def zeroCurrentConfig : DimensionConfig :=
  { name := "accuracy", dim_type := .accuracy, current_value := 0,
    target_value := some (95/100) }

/-- A sample metrics record used as a concrete input. -/
def sampleMetrics : PerformanceMetrics :=
  ⟨5, 2, 1/100, 3, 4, 256, 100, 99, 1, 60⟩

/-- A sample metrics record whose throughput baseline is zero. -/
def zeroThroughputMetrics : PerformanceMetrics :=
  ⟨0, 2, 1/100, 3, 4, 256, 100, 99, 1, 60⟩

/-! Theorems. -/

/-- C2: the claim says `_run_sandbox` / `_parse_metrics_output` never raise
on abnormal termination or unparseable output, and the source's own fallback
comment (line 487, `Fallback: return empty metrics`) shows the same intent;
but when the container prints a bare JSON scalar such as `5`, `json.loads`
succeeds, `"metrics" in data` raises an uncaught `TypeError` (only
`json.JSONDecodeError` is caught), and the call raises instead of returning
the zero-valued fallback with the wall-clock duration.  The genuinely
unparseable output (`none`) does fall back as claimed. -/
theorem C2_parse_raises_on_scalar_output :
    SandboxValidator._parse_metrics_output (some (.num 5)) 7 =
      .error .typeError ∧
    SandboxValidator._run_sandbox (.success (some (.num 5))) 7 =
      .error .typeError ∧
    SandboxValidator._run_sandbox (.containerError (some (.num 5))) 7 =
      .error .typeError ∧
    SandboxValidator._parse_metrics_output none 7 =
      .ok (SandboxValidator.fallbackMetrics 7) := by
  exact ⟨rfl, rfl, rfl, rfl⟩

/-- C7 counterexample: with a measured 1x throughput of `0`, the throughputs
`0, 0, 0` satisfy the claim's perfect-linearity hypothesis
(`throughput_at_m = throughput_at_1x * m`), yet the aggregate linearity is
`0`, not `1.0`: both guarded divisions fall to their `else 0` branch. -/
theorem C7_counterexample :
    (0 : ℚ) = 0 * 5 ∧ (0 : ℚ) = 0 * 10 ∧
    (SandboxValidator._test_scale 0 0 0).linearity = 0 ∧
    (SandboxValidator._test_scale 0 0 0).linearity ≠ 1 := by
  refine ⟨by norm_num, by norm_num, ?_, ?_⟩ <;>
    norm_num [SandboxValidator._test_scale]

/-- C7 (amended): for every scale test with a POSITIVE measured 1x
throughput whose 5x and 10x throughputs are perfectly linear, each
per-multiplier linearity is `actual / (throughput_1x * m)` and the aggregate
(the arithmetic mean over the multipliers 5 and 10) equals exactly `1`. -/
theorem C7_perfect_linearity (t1 : ℚ) (h : 0 < t1) :
    (SandboxValidator._test_scale t1 (t1 * 5) (t1 * 10)).linearity_5x = 1 ∧
    (SandboxValidator._test_scale t1 (t1 * 5) (t1 * 10)).linearity_10x = 1 ∧
    (SandboxValidator._test_scale t1 (t1 * 5) (t1 * 10)).linearity = 1 := by
  have h5 : (0 : ℚ) < t1 * 5 := by positivity
  have h10 : (0 : ℚ) < t1 * 10 := by positivity
  have d5 : t1 * 5 / (t1 * 5) = 1 := div_self (ne_of_gt h5)
  have d10 : t1 * 10 / (t1 * 10) = 1 := div_self (ne_of_gt h10)
  refine ⟨?_, ?_, ?_⟩ <;>
    simp [SandboxValidator._test_scale, h5, h10, d5, d10]

/-- C7 witness: the amended theorem at the concrete 1x throughput `2`. -/
theorem C7_perfect_linearity_witness :
    (SandboxValidator._test_scale 2 (2 * 5) (2 * 10)).linearity_5x = 1 ∧
    (SandboxValidator._test_scale 2 (2 * 5) (2 * 10)).linearity_10x = 1 ∧
    (SandboxValidator._test_scale 2 (2 * 5) (2 * 10)).linearity = 1 :=
  C7_perfect_linearity 2 (by norm_num)

/-- C10: when the measured 1x throughput is `0`, both expected throughputs
are `0`, the `if expected > 0` guards make both per-multiplier linearities
`0` with no division performed, the aggregate linearity is `0`, and the
decision gate's scale condition (`linearity > 0.8`) fails, so the proposal
is rejected whatever the improvements, regressions and limiting factor. -/
theorem C10_zero_baseline_scale (t5 t10 : ℚ)
    (improvement regressions : List (String × ℚ)) (limiting_factor : String) :
    (SandboxValidator._test_scale 0 t5 t10).linearity_5x = 0 ∧
    (SandboxValidator._test_scale 0 t5 t10).linearity_10x = 0 ∧
    (SandboxValidator._test_scale 0 t5 t10).linearity = 0 ∧
    (SandboxValidator.decisionGate improvement regressions limiting_factor
      (SandboxValidator._test_scale 0 t5 t10).linearity).1 = false := by
  have hl : (SandboxValidator._test_scale 0 t5 t10).linearity = 0 := by
    norm_num [SandboxValidator._test_scale]
  refine ⟨by norm_num [SandboxValidator._test_scale],
          by norm_num [SandboxValidator._test_scale], hl, ?_⟩
  rw [hl]
  have hs : decide ((0 : ℚ) > 8 / 10) = false := by norm_num
  simp [SandboxValidator.decisionGate, hs]

/-- C8: `_calculate_confidence` computes exactly the spec's formula — `0.5`
plus `min(mean(improvements) * 0.3, 0.3)`, minus `min(max(regressions,
default 0) * 0.5, 0.3)`, plus `linearity * 0.2`, clamped to `[0, 1]` — and
the returned confidence lies in `[0, 1]` for arbitrary inputs. -/
theorem C8_confidence_formula (improvements regressions : List (String × ℚ))
    (linearity : ℚ) :
    SandboxValidator._calculate_confidence improvements regressions linearity =
      confidenceSpec improvements regressions linearity ∧
    0 ≤ SandboxValidator._calculate_confidence improvements regressions linearity ∧
    SandboxValidator._calculate_confidence improvements regressions linearity ≤ 1 := by
  have h03 : ((0 : ℚ) ⊓ (3/10)) = 0 := min_eq_left (by norm_num)
  have heq : SandboxValidator._calculate_confidence improvements regressions
      linearity = confidenceSpec improvements regressions linearity := by
    cases improvements <;> cases regressions <;>
      simp [SandboxValidator._calculate_confidence, confidenceSpec, h03]
  refine ⟨heq, ?_, ?_⟩ <;> rw [heq] <;> simp only [confidenceSpec]
  · exact le_min (le_max_right _ _) zero_le_one
  · exact min_le_right _ _

/-- C1 counterexample: at a scale linearity of exactly `0.80` — with the
bottleneck improved by 20% and no regressions, so the claim's three
conditions (`≥ 0.15`, `≤ 0.05`, `≥ 0.80`) all hold — the code rejects,
because line 204 tests `scale_results["linearity"] > 0.8` strictly. -/
theorem C1_counterexample :
    claimGateApproved [("throughput", 1/5)] [] "throughput" (8/10) ∧
    (SandboxValidator.decisionGate [("throughput", 1/5)] [] "throughput"
      (8/10)).1 = false ∧
    (SandboxValidator.decisionGate [("throughput", 1/5)] [] "throughput"
      (8/10)).2 = some .scaleLinearityTooLow := by
  refine ⟨⟨?_, ?_, ?_⟩, ?_, ?_⟩
  · norm_num [List.lookup]
  · simp
  · norm_num
  all_goals
    norm_num [SandboxValidator.decisionGate, List.lookup,
      SandboxValidator.IMPROVEMENT_THRESHOLD,
      SandboxValidator.REGRESSION_TOLERANCE]

/-- C1 (amended): the gate approves iff the bottleneck dimension's
improvement is at least `0.15`, every tracked regression is at most `0.05`,
and the scale linearity is STRICTLY GREATER than `0.80`; when approved the
reason is `none`, and when rejected the reason names exactly the first
failing condition in the priority order bottleneck-improvement,
regression-tolerance, scale-linearity. -/
theorem C1_decision_gate (improvement regressions : List (String × ℚ))
    (limiting_factor : String) (lin : ℚ) :
    ((SandboxValidator.decisionGate improvement regressions limiting_factor
        lin).1 = true ↔
      ((improvement.lookup limiting_factor).getD 0 ≥
          SandboxValidator.IMPROVEMENT_THRESHOLD ∧
        (∀ p ∈ regressions, p.2 ≤ SandboxValidator.REGRESSION_TOLERANCE) ∧
        lin > 8/10)) ∧
    ((SandboxValidator.decisionGate improvement regressions limiting_factor
        lin).1 = true →
      (SandboxValidator.decisionGate improvement regressions limiting_factor
        lin).2 = none) ∧
    (¬ ((improvement.lookup limiting_factor).getD 0 ≥
        SandboxValidator.IMPROVEMENT_THRESHOLD) →
      (SandboxValidator.decisionGate improvement regressions limiting_factor
        lin).2 = some .bottleneckNotImproved) ∧
    ((improvement.lookup limiting_factor).getD 0 ≥
        SandboxValidator.IMPROVEMENT_THRESHOLD →
      ¬ (∀ p ∈ regressions, p.2 ≤ SandboxValidator.REGRESSION_TOLERANCE) →
      (SandboxValidator.decisionGate improvement regressions limiting_factor
        lin).2 = some .regressionExceedsTolerance) ∧
    ((improvement.lookup limiting_factor).getD 0 ≥
        SandboxValidator.IMPROVEMENT_THRESHOLD →
      (∀ p ∈ regressions, p.2 ≤ SandboxValidator.REGRESSION_TOLERANCE) →
      ¬ (lin > 8/10) →
      (SandboxValidator.decisionGate improvement regressions limiting_factor
        lin).2 = some .scaleLinearityTooLow) := by
  by_cases h1 : (improvement.lookup limiting_factor).getD 0 ≥
      SandboxValidator.IMPROVEMENT_THRESHOLD <;>
  by_cases h2 : ∀ p ∈ regressions, p.2 ≤ SandboxValidator.REGRESSION_TOLERANCE <;>
  by_cases h3 : lin > 8/10 <;>
  simp [SandboxValidator.decisionGate, h1, h2, h3, List.all_eq_true]

/-- C1 witness: the amended theorem's regression-priority clause applied at a
concrete input whose bottleneck improved but whose cost regressed by 10%. -/
theorem C1_decision_gate_witness :
    (SandboxValidator.decisionGate [("throughput", 1/5)] [("cost", 1/10)]
      "throughput" (9/10)).2 = some .regressionExceedsTolerance :=
  (C1_decision_gate [("throughput", 1/5)] [("cost", 1/10)] "throughput"
    (9/10)).2.2.2.1
    (by norm_num [List.lookup, SandboxValidator.IMPROVEMENT_THRESHOLD])
    (by
      intro h
      have := h ("cost", 1/10) (by simp)
      norm_num [SandboxValidator.REGRESSION_TOLERANCE] at this)

/-- Helper: the percentage change between equal values is zero, in both the
zero-baseline and the nonzero-baseline branch. -/
theorem pctChange_self (x : ℚ) : SandboxValidator.pctChange x x = 0 := by
  unfold SandboxValidator.pctChange
  split <;> simp

/-- Helper: a key that names none of the dimensions appears in neither map
produced by `classifyChanges`. -/
theorem lookup_classify_none (b p : PerformanceMetrics) :
    ∀ (dims : List (String × (PerformanceMetrics → ℚ) × Bool)) (k : String),
      (∀ d ∈ dims, d.1 ≠ k) →
      (SandboxValidator.classifyChanges b p dims).1.lookup k = none ∧
      (SandboxValidator.classifyChanges b p dims).2.lookup k = none := by
  intro dims
  induction dims with
  | nil =>
    intro k _
    simp [SandboxValidator.classifyChanges, List.lookup]
  | cons d rest ih =>
    intro k hk
    have hd : (k == d.1) = false :=
      beq_eq_false_iff_ne.mpr (Ne.symm (hk d (List.mem_cons_self _ _)))
    obtain ⟨h1, h2⟩ := ih k (fun e he => hk e (List.mem_cons_of_mem _ he))
    simp only [SandboxValidator.classifyChanges]
    split_ifs <;> simp [List.lookup, hd, h1, h2]

/-- Helper: peeling a dimension off the front of the list does not change
either map's entry at any other key. -/
theorem lookup_classify_cons_ne (b p : PerformanceMetrics)
    (d : String × (PerformanceMetrics → ℚ) × Bool)
    (rest : List (String × (PerformanceMetrics → ℚ) × Bool)) (k : String)
    (hne : d.1 ≠ k) :
    (SandboxValidator.classifyChanges b p (d :: rest)).1.lookup k =
      (SandboxValidator.classifyChanges b p rest).1.lookup k ∧
    (SandboxValidator.classifyChanges b p (d :: rest)).2.lookup k =
      (SandboxValidator.classifyChanges b p rest).2.lookup k := by
  have hd : (k == d.1) = false := beq_eq_false_iff_ne.mpr (Ne.symm hne)
  simp only [SandboxValidator.classifyChanges]
  split_ifs <;> simp [List.lookup, hd]

/-- Helper: the head dimension lands in exactly one of the two maps. -/
theorem classify_head_partition (b p : PerformanceMetrics)
    (d : String × (PerformanceMetrics → ℚ) × Bool)
    (rest : List (String × (PerformanceMetrics → ℚ) × Bool))
    (hk : ∀ e ∈ rest, e.1 ≠ d.1) :
    (((SandboxValidator.classifyChanges b p (d :: rest)).1.lookup d.1).isSome =
        true ∧
      (SandboxValidator.classifyChanges b p (d :: rest)).2.lookup d.1 = none) ∨
    ((SandboxValidator.classifyChanges b p (d :: rest)).1.lookup d.1 = none ∧
      ((SandboxValidator.classifyChanges b p (d :: rest)).2.lookup d.1).isSome =
        true) := by
  obtain ⟨h1, h2⟩ := lookup_classify_none b p rest d.1 hk
  simp only [SandboxValidator.classifyChanges]
  split_ifs <;> simp [List.lookup, h1, h2]

/-- Helper: a head dimension whose percentage change is zero is recorded in
the regressions map with value `0` and absent from the improvements map. -/
theorem classify_head_zero (b p : PerformanceMetrics)
    (d : String × (PerformanceMetrics → ℚ) × Bool)
    (rest : List (String × (PerformanceMetrics → ℚ) × Bool))
    (hk : ∀ e ∈ rest, e.1 ≠ d.1)
    (h0 : SandboxValidator.pctChange (d.2.1 b) (d.2.1 p) = 0) :
    (SandboxValidator.classifyChanges b p (d :: rest)).2.lookup d.1 = some 0 ∧
    (SandboxValidator.classifyChanges b p (d :: rest)).1.lookup d.1 = none := by
  obtain ⟨h1, h2⟩ := lookup_classify_none b p rest d.1 hk
  simp only [SandboxValidator.classifyChanges, h0]
  by_cases hb : d.2.2 = true <;>
    simp [hb, List.lookup, h1, h2, lt_irrefl, lt_self_iff_false]

/-- Helper: with pairwise distinct dimension names, every dimension lands in
exactly one of the two maps of `classifyChanges`. -/
theorem classify_partition_mem (b p : PerformanceMetrics) :
    ∀ (dims : List (String × (PerformanceMetrics → ℚ) × Bool)),
      (dims.map (fun d => d.1)).Nodup →
      ∀ d ∈ dims,
      (((SandboxValidator.classifyChanges b p dims).1.lookup d.1).isSome =
          true ∧
        (SandboxValidator.classifyChanges b p dims).2.lookup d.1 = none) ∨
      ((SandboxValidator.classifyChanges b p dims).1.lookup d.1 = none ∧
        ((SandboxValidator.classifyChanges b p dims).2.lookup d.1).isSome =
          true) := by
  intro dims
  induction dims with
  | nil => intro _ d hd; cases hd
  | cons e rest ih =>
    intro hnodup d hd
    have hnd := (List.nodup_cons.mp hnodup)
    rcases List.mem_cons.mp hd with rfl | hmem
    · refine classify_head_partition b p d rest ?_
      intro f hf hf1
      apply hnd.1
      show d.1 ∈ List.map (fun x => x.1) rest
      rw [← hf1]
      exact List.mem_map_of_mem _ hf
    · have hne : e.1 ≠ d.1 := by
        intro h
        apply hnd.1
        show e.1 ∈ List.map (fun x => x.1) rest
        rw [h]
        exact List.mem_map_of_mem _ hmem
      obtain ⟨r1, r2⟩ := lookup_classify_cons_ne b p e rest d.1 hne
      rw [r1, r2]
      exact ih hnd.2 d hmem

/-- Helper: with pairwise distinct dimension names, a dimension whose
percentage change is zero is recorded in the regressions map with value `0`
and absent from the improvements map. -/
theorem classify_zero_mem (b p : PerformanceMetrics) :
    ∀ (dims : List (String × (PerformanceMetrics → ℚ) × Bool)),
      (dims.map (fun d => d.1)).Nodup →
      ∀ d ∈ dims, SandboxValidator.pctChange (d.2.1 b) (d.2.1 p) = 0 →
      (SandboxValidator.classifyChanges b p dims).2.lookup d.1 = some 0 ∧
      (SandboxValidator.classifyChanges b p dims).1.lookup d.1 = none := by
  intro dims
  induction dims with
  | nil => intro _ d hd; cases hd
  | cons e rest ih =>
    intro hnodup d hd h0
    have hnd := (List.nodup_cons.mp hnodup)
    rcases List.mem_cons.mp hd with rfl | hmem
    · refine classify_head_zero b p d rest ?_ h0
      intro f hf hf1
      apply hnd.1
      show d.1 ∈ List.map (fun x => x.1) rest
      rw [← hf1]
      exact List.mem_map_of_mem _ hf
    · have hne : e.1 ≠ d.1 := by
        intro h
        apply hnd.1
        show e.1 ∈ List.map (fun x => x.1) rest
        rw [h]
        exact List.mem_map_of_mem _ hmem
      obtain ⟨r1, r2⟩ := lookup_classify_cons_ne b p e rest d.1 hne
      rw [r1, r2]
      exact ih hnd.2 d hmem h0

/-- Helper: the five tracked dimension names are pairwise distinct. -/
theorem changeDimensions_names_nodup :
    (SandboxValidator.changeDimensions.map (fun d => d.1)).Nodup := by
  simp [SandboxValidator.changeDimensions]

/-- C5: every tracked dimension lands in exactly one of the two maps of
`_calculate_changes` — never both, never neither — and a dimension whose
baseline value is `0` gets percentage change `0` (no division) and is still
recorded (in the regressions map, with value `0`) rather than skipped. -/
theorem C5_changes_partition (b p : PerformanceMetrics) :
    (∀ d ∈ SandboxValidator.changeDimensions,
      (((SandboxValidator._calculate_changes b p).1.lookup d.1).isSome = true ∧
        (SandboxValidator._calculate_changes b p).2.lookup d.1 = none) ∨
      ((SandboxValidator._calculate_changes b p).1.lookup d.1 = none ∧
        ((SandboxValidator._calculate_changes b p).2.lookup d.1).isSome = true)) ∧
    (∀ d ∈ SandboxValidator.changeDimensions, d.2.1 b = 0 →
      (SandboxValidator._calculate_changes b p).2.lookup d.1 = some 0 ∧
      (SandboxValidator._calculate_changes b p).1.lookup d.1 = none) := by
  constructor
  · exact fun d hd =>
      classify_partition_mem b p SandboxValidator.changeDimensions
        changeDimensions_names_nodup d hd
  · intro d hd hz
    exact classify_zero_mem b p SandboxValidator.changeDimensions
      changeDimensions_names_nodup d hd
      (by simp [SandboxValidator.pctChange, hz])

/-- C5 witness: the theorem at a concrete metrics pair whose throughput
baseline is zero, instantiated at the throughput dimension. -/
theorem C5_changes_partition_witness :
    (SandboxValidator._calculate_changes zeroThroughputMetrics sampleMetrics).2.lookup
      "throughput" = some 0 ∧
    (SandboxValidator._calculate_changes zeroThroughputMetrics sampleMetrics).1.lookup
      "throughput" = none :=
  (C5_changes_partition zeroThroughputMetrics sampleMetrics).2
    ("throughput", fun m => m.throughput, true)
    (List.mem_cons_self _ _)
    (by norm_num [zeroThroughputMetrics])

/-- C6 counterexample: comparing a metrics record against itself, every
dimension's percentage change is `0`, yet `throughput` is recorded in the
REGRESSIONS map (with value `0`) — `_calculate_changes` classifies an
unchanged dimension as a zero-magnitude regression, not as "neither" and not
as a zero-magnitude improvement. -/
theorem C6_counterexample :
    (SandboxValidator._calculate_changes sampleMetrics sampleMetrics).2.lookup
      "throughput" = some 0 ∧
    (SandboxValidator._calculate_changes sampleMetrics sampleMetrics).1.lookup
      "throughput" = none :=
  classify_zero_mem sampleMetrics sampleMetrics
    SandboxValidator.changeDimensions changeDimensions_names_nodup
    ("throughput", fun m => m.throughput, true) (List.mem_cons_self _ _)
    (pctChange_self _)

/-- C6 (amended): when a dimension's baseline and candidate values are equal,
its percentage change is `0` and it is always classified as a zero-magnitude
REGRESSION (and never as an improvement): the code's sign tests send a zero
change to the regressions dict for both directions. -/
theorem C6_equal_values_zero_regression (b p : PerformanceMetrics) :
    ∀ d ∈ SandboxValidator.changeDimensions, d.2.1 b = d.2.1 p →
      (SandboxValidator._calculate_changes b p).2.lookup d.1 = some 0 ∧
      (SandboxValidator._calculate_changes b p).1.lookup d.1 = none := by
  intro d hd heq
  refine classify_zero_mem b p SandboxValidator.changeDimensions
    changeDimensions_names_nodup d hd ?_
  rw [heq]
  exact pctChange_self _

/-- C6 witness: the amended theorem at a concrete pair equal on the cost
dimension. -/
theorem C6_equal_values_zero_regression_witness :
    (SandboxValidator._calculate_changes zeroThroughputMetrics sampleMetrics).2.lookup
      "cost" = some 0 ∧
    (SandboxValidator._calculate_changes zeroThroughputMetrics sampleMetrics).1.lookup
      "cost" = none :=
  C6_equal_values_zero_regression zeroThroughputMetrics sampleMetrics
    ("cost", fun m => m.cost, false)
    (List.mem_cons_of_mem _ (List.mem_cons_self _ _))
    (by norm_num [zeroThroughputMetrics, sampleMetrics])

/-- C4 counterexample: a higher-is-better accuracy reading with
`target_value` set (`0.95`) and `current_value = 0.0`: Python's
`if self.target_value and self.current_value:` is falsy at `0.0`, so the
target branch is skipped and `utilization()` returns the neutral `0.5` —
not `1 − min(0/0.95, 1) = 1` as the claim's formula requires. -/
theorem C4_counterexample :
    zeroCurrentConfig.target_value = some (95/100) ∧
    zeroCurrentConfig.utilization = 1/2 ∧
    1 - min (zeroCurrentConfig.current_value / (95/100)) 1 = (1 : ℚ) := by
  have hmin : min ((0 : ℚ)) 1 = 0 := min_eq_left (by norm_num)
  refine ⟨rfl, ?_, ?_⟩ <;>
    norm_num [zeroCurrentConfig, DimensionConfig.utilization,
      DimensionType.higherIsBetter, isTruthy, hmin]

/-- C4 (amended): for every higher-is-better dimension (throughput,
accuracy) with a NONZERO target and a NONZERO current value,
`utilization()` equals `1 − min(current/target, 1)`; at `current_value = 0`
(Python-falsy) the target branch is skipped instead. -/
theorem C4_higher_target_formula (c : DimensionConfig) (t : ℚ)
    (hdim : c.dim_type = .throughput ∨ c.dim_type = .accuracy)
    (ht : c.target_value = some t) (ht0 : t ≠ 0) (hc : c.current_value ≠ 0) :
    c.utilization = 1 - min (c.current_value / t) 1 := by
  rcases hdim with h | h <;>
    simp [DimensionConfig.utilization, h, DimensionType.higherIsBetter,
      isTruthy, ht, ht0, hc]

/-- C4 witness: the amended theorem at accuracy `0.5` against target
`0.95`. -/
theorem C4_higher_target_formula_witness :
    DimensionConfig.utilization
      { name := "accuracy", dim_type := .accuracy, current_value := 1/2,
        target_value := some (95/100) } =
      1 - min ((1/2 : ℚ) / (95/100)) 1 :=
  C4_higher_target_formula
    { name := "accuracy", dim_type := .accuracy, current_value := 1/2,
      target_value := some (95/100) }
    (95/100) (Or.inr rfl) rfl (by norm_num) (by norm_num)

/-- C3 counterexample: a higher-is-better dimension with only `max_value`
configured and `current_value` above it — NOT the claim's excepted
lower-is-better-with-only-target case — yields utilization `2`: the
`current / max` branch at line 45 has no `min(..., 1)` clamp. -/
theorem C3_counterexample :
    overshootConfig.max_value ≠ none ∧
    overshootConfig.dim_type.lowerIsBetter = false ∧
    overshootConfig.utilization = 2 ∧
    1 < overshootConfig.utilization := by
  have h2 : overshootConfig.utilization = 2 := by
    norm_num [overshootConfig, DimensionConfig.utilization,
      DimensionType.higherIsBetter, isTruthy]
  exact ⟨by simp [overshootConfig], rfl, h2, by rw [h2]; norm_num⟩

/-- C3 (amended): for every dimension reading with at least one bound
configured, a nonnegative current value, positive configured bounds, a
current value NOT EXCEEDING `max_value` whenever `max_value` is set (the
unclamped division branches at lines 45 and 61 otherwise exceed 1), and
excluding the lower-is-better-without-`max_value` case the claim already
excepts, `utilization()` lies in `[0, 1]`. -/
theorem C3_utilization_bounds (c : DimensionConfig)
    (hcur : 0 ≤ c.current_value)
    (htar : ∀ t, c.target_value = some t → 0 < t)
    (hmax : ∀ m, c.max_value = some m → 0 < m ∧ c.current_value ≤ m)
    (_hbound : c.target_value ≠ none ∨ c.max_value ≠ none)
    (hexc : ¬(c.dim_type.lowerIsBetter = true ∧ c.max_value = none)) :
    0 ≤ c.utilization ∧ c.utilization ≤ 1 := by
  unfold DimensionConfig.utilization
  by_cases hhib : c.dim_type.higherIsBetter = true
  · rw [if_pos hhib]
    by_cases hbr : (isTruthy c.target_value && (c.current_value != 0)) = true
    · rw [if_pos hbr]
      cases htv : c.target_value with
      | none => rw [htv] at hbr; simp [isTruthy] at hbr
      | some t =>
        have ht : 0 < t := htar t htv
        simp only [htv, Option.getD_some]
        have hmle : min (c.current_value / t) 1 ≤ 1 := min_le_right _ _
        have hm0 : 0 ≤ min (c.current_value / t) 1 :=
          le_min (div_nonneg hcur ht.le) zero_le_one
        constructor <;> linarith
    · rw [if_neg hbr]
      by_cases hm : isTruthy c.max_value = true
      · rw [if_pos hm]
        cases hmv : c.max_value with
        | none => rw [hmv] at hm; simp [isTruthy] at hm
        | some m =>
          obtain ⟨hm0, hmle⟩ := hmax m hmv
          simp only [hmv, Option.getD_some]
          exact ⟨div_nonneg hcur hm0.le, (div_le_one hm0).mpr hmle⟩
      · rw [if_neg hm]; norm_num
  · rw [if_neg hhib]
    by_cases hlib : c.dim_type.lowerIsBetter = true
    · rw [if_pos hlib]
      cases hmv : c.max_value with
      | none => exact absurd ⟨hlib, hmv⟩ hexc
      | some m =>
        obtain ⟨hm0, hmle⟩ := hmax m hmv
        have hmt : isTruthy (some m) = true := by
          simp [isTruthy, bne_iff_ne]
          exact ne_of_gt hm0
        rw [if_pos hmt]
        simp only [Option.getD_some]
        exact ⟨le_min (div_nonneg hcur hm0.le) zero_le_one, min_le_right _ _⟩
    · rw [if_neg hlib]
      by_cases htok : c.dim_type = .token_usage
      · rw [if_pos htok]
        by_cases hm : isTruthy c.max_value = true
        · rw [if_pos hm]
          cases hmv : c.max_value with
          | none => rw [hmv] at hm; simp [isTruthy] at hm
          | some m =>
            obtain ⟨hm0, hmle⟩ := hmax m hmv
            simp only [hmv, Option.getD_some]
            exact ⟨div_nonneg hcur hm0.le, (div_le_one hm0).mpr hmle⟩
        · rw [if_neg hm]; norm_num
      · rw [if_neg htok]; norm_num

/-- C3 witness: the amended theorem at the default latency configuration
(current `5`, max `10`). -/
theorem C3_utilization_bounds_witness :
    0 ≤ DimensionConfig.utilization
      { name := "latency", dim_type := .latency, current_value := 5,
        max_value := some 10, unit := "seconds" } ∧
    DimensionConfig.utilization
      { name := "latency", dim_type := .latency, current_value := 5,
        max_value := some 10, unit := "seconds" } ≤ 1 :=
  C3_utilization_bounds
    { name := "latency", dim_type := .latency, current_value := 5,
      max_value := some 10, unit := "seconds" }
    (by norm_num)
    (by intro t ht; simp at ht)
    (by intro m hm; injection hm with h; subst h; norm_num)
    (Or.inr (by simp))
    (by simp)

/-- Helper: Python's first-maximum `max` satisfies the `FirstMax`
specification — the selected pair dominates everything after it strictly
dominates everything before it. -/
theorem pyMaxGo_firstMax :
    ∀ (xs : List (String × ℚ)) (best : String × ℚ),
      FirstMax (best :: xs) (pyMaxGo best xs) := by
  intro xs
  induction xs with
  | nil =>
    intro best
    exact ⟨[], [], rfl, by simp, by simp⟩
  | cons y ys ih =>
    intro best
    by_cases h : best.2 < y.2
    · have hg : pyMaxGo best (y :: ys) = pyMaxGo y ys := by
        simp [pyMaxGo, h]
      rw [hg]
      obtain ⟨pre, post, heq, hpre, hpost⟩ := ih y
      have hy : y.2 ≤ (pyMaxGo y ys).2 := by
        have hmem : y ∈ pre ++ (pyMaxGo y ys) :: post := by
          rw [← heq]
          exact List.mem_cons_self _ _
        rcases List.mem_append.mp hmem with hy1 | hy2
        · exact le_of_lt (hpre y hy1)
        · rcases List.mem_cons.mp hy2 with hy0 | hy3
          · exact le_of_eq (congrArg Prod.snd hy0)
          · exact hpost y hy3
      refine ⟨best :: pre, post, ?_, ?_, hpost⟩
      · rw [List.cons_append, ← heq]
      · intro z hz
        rcases List.mem_cons.mp hz with rfl | hz2
        · exact lt_of_lt_of_le h hy
        · exact hpre z hz2
    · have hg : pyMaxGo best (y :: ys) = pyMaxGo best ys := by
        simp [pyMaxGo, h]
      rw [hg]
      obtain ⟨pre, post, heq, hpre, hpost⟩ := ih best
      have hyb : y.2 ≤ best.2 := le_of_not_lt h
      cases pre with
      | nil =>
        simp only [List.nil_append] at heq
        obtain ⟨h1, h2⟩ := List.cons.inj heq
        refine ⟨[], y :: post, ?_, by simp, ?_⟩
        · simp only [List.nil_append]
          rw [← h1, h2]
        · intro z hz
          rcases List.mem_cons.mp hz with rfl | hz2
          · exact h1 ▸ hyb
          · exact hpost z hz2
      | cons a pre' =>
        simp only [List.cons_append] at heq
        obtain ⟨h1, h2⟩ := List.cons.inj heq
        have hbw : best.2 < (pyMaxGo best ys).2 := by
          apply hpre
          rw [h1]
          exact List.mem_cons_self _ _
        refine ⟨best :: y :: pre', post, ?_, ?_, hpost⟩
        · rw [List.cons_append, List.cons_append, ← h2]
        · intro z hz
          rcases List.mem_cons.mp hz with rfl | hz2
          · exact hbw
          · rcases List.mem_cons.mp hz2 with rfl | hz3
            · exact lt_of_le_of_lt hyb hbw
            · exact hpre z (List.mem_cons_of_mem _ hz3)

/-- C9: bottleneck identification is a pure function of the readings (hence
deterministic across runs), and both implementations select the dimension
with the maximum utilization, ties broken by the stable declaration /
insertion order: every dimension listed before the winner has strictly
smaller utilization and every dimension after it has no larger one. -/
theorem C9_bottleneck_first_max :
    (∀ m : PerformanceMetrics, ∃ w : String × ℚ,
      pyMaxByValue (SandboxValidator.validatorUtilizations m) = some w ∧
      w.1 = SandboxValidator._identify_bottleneck m ∧
      FirstMax (SandboxValidator.validatorUtilizations m) w) ∧
    (∀ (dims : List DimensionConfig) (w : String × ℚ),
      PerformanceMonitor.identify_bottleneck dims = some w →
      FirstMax (dims.map (fun c => (c.name, c.utilization))) w) := by
  constructor
  · intro m
    exact ⟨_, rfl, rfl, pyMaxGo_firstMax _ _⟩
  · intro dims w h
    cases dims with
    | nil =>
      exact absurd h
        (by simp [PerformanceMonitor.identify_bottleneck, pyMaxByValue])
    | cons c cs =>
      simp only [PerformanceMonitor.identify_bottleneck, List.map_cons,
        pyMaxByValue, Option.some.injEq] at h
      rw [List.map_cons, ← h]
      exact pyMaxGo_firstMax _ _

/-- C9 witness: the monitor-side characterization applied at the default
dimension configurations, whose bottleneck is throughput at severity
`0.95`. -/
theorem C9_bottleneck_first_max_witness :
    FirstMax
      (PerformanceMonitor.defaultDimensions.map (fun c => (c.name, c.utilization)))
      ("throughput", 19/20) :=
  C9_bottleneck_first_max.2 PerformanceMonitor.defaultDimensions
    ("throughput", 19/20)
    (by norm_num [PerformanceMonitor.identify_bottleneck,
      PerformanceMonitor.defaultDimensions, pyMaxByValue, pyMaxGo,
      DimensionConfig.utilization, DimensionType.higherIsBetter,
      DimensionType.lowerIsBetter, isTruthy, min_def])

end SuperAgent
